import Mathlib

/-!
Verification of the mabani knowledge-base ingestion and query core.

This file gives a shallow embedding, in Lean 4, of the Python source under
`backend/lambdas` and `backend/layers/kb`, and settles the frozen claims
about it.  Each definition is translated from the named source function;
external collaborators (DynamoDB conditional writes, the FAISS flat index,
the Bedrock embedding call) are modelled at the granularity their documented
semantics prescribe.  Embedding coordinates are modelled as integers (exact
arithmetic); none of the claims depends on floating-point rounding.
-/

namespace Mabani

/-! ## Lock Manager
    Source: `backend/layers/kb/python/lambdas/shared/kb_repositories.py`,
    `KnowledgeBaseRepository.update_index_lock` (lines 24-50) and
    `release_index_lock` (lines 52-62).

    The DynamoDB item for a KB holds at most one `indexLock` attribute and
    one `indexLockTime` attribute; the two are always SET together by
    `update_index_lock` and REMOVEd together by `release_index_lock`, so the
    lock record is modelled as `Option (String × Int)` (lease id, timestamp
    in milliseconds).  A DynamoDB `update_item` with a `ConditionExpression`
    is a single atomic step: it either applies the whole update or raises a
    condition failure, which the Python code turns into `False` / `pass`. -/

/-- Lease record on the KB item: `some (indexLock, indexLockTime)` or absent. -/
abbrev LockState := Option (String × Int)

/-- Default `ttl_seconds` of `update_index_lock` (source line 25). -/
def defaultLockTtlSeconds : Int := 300

/-- KnowledgeBaseRepository.update_index_lock: one conditional write.
    Condition (source lines 36-40):
    `attribute_not_exists(indexLock) OR indexLock = "" OR indexLockTime < :expiry`
    with `:expiry = timestamp - ttl_seconds * 1000`.  On success it sets
    `indexLock := lock_id` and `indexLockTime := timestamp` and returns
    `True`; the condition failure is caught and `False` returned, the item
    untouched. -/
def update_index_lock (s : LockState) (lock_id : String) (nowMs : Int)
    (ttl_seconds : Int) : LockState × Bool :=
  let expiry := nowMs - ttl_seconds * 1000
  match s with
  | none => (some (lock_id, nowMs), true)
  | some (l, t) =>
      if l = "" ∨ t < expiry then (some (lock_id, nowMs), true)
      else (some (l, t), false)

/-- KnowledgeBaseRepository.release_index_lock: one conditional write.
    `REMOVE indexLock, indexLockTime` under condition `indexLock = :lock`;
    a condition failure is swallowed (`except Exception: pass`). -/
def release_index_lock (s : LockState) (lock_id : String) : LockState :=
  match s with
  | none => none
  | some (l, t) => if l = lock_id then none else some (l, t)

/-- Lease ids currently recorded on the KB item. -/
def recordedLeaseIds (s : LockState) : List String :=
  match s with
  | none => []
  | some (l, _) => [l]

/-- States of the KB lock record reachable from a fresh record by any
    interleaving of acquire and release steps by any jobs at any times. -/
inductive LockReachable : LockState → Prop where
  | init : LockReachable none
  | acq (s : LockState) (lock_id : String) (nowMs ttl_seconds : Int) :
      LockReachable s →
      LockReachable (update_index_lock s lock_id nowMs ttl_seconds).1
  | rel (s : LockState) (lock_id : String) :
      LockReachable s → LockReachable (release_index_lock s lock_id)

/-! ## Chunk records
    Source: `backend/layers/kb/python/lambdas/shared/document_processing.py`,
    `DocumentProcessingService._create_chunks` (lines 187-227).  One chunk
    metadata dict, field for field. -/

/-- One entry of the metadata array parallel to the vector index. -/
structure Chunk where
  chunk_id : String
  document_id : String
  kb_id : String
  text : String
  type : String
  content : String
  source : String
  page : String
  chunk_index : Nat
  token_count : Nat
deriving Repr, DecidableEq

/-! ## FAISS flat index and FAISSService.search
    Source: `backend/lambdas/shared/faiss_utils.py`, `FAISSService.search`
    (lines 157-185).  The index itself is the external `faiss.IndexFlatL2`;
    its documented search semantics are modelled here: `index.search(q, k)`
    returns exactly `k` (distance, label) pairs, the nearest stored vectors
    first (squared L2 distance), and when `k` exceeds `ntotal` the remaining
    slots are padded with label `-1` and the maximal float distance.
    Coordinates are integers, so distances are exact. -/

/-- Squared L2 distance between two vectors. -/
def sqDist (q v : List Int) : Int :=
  (List.zipWith (fun a b => (a - b) * (a - b)) q v).sum

/-- Stand-in for the maximal float32 distance FAISS uses to pad missing
    neighbors; only its being larger than every real distance matters. -/
def floatMaxDistance : Int := 2 ^ 128

/-- Insert a (distance, label) pair into a distance-sorted list. -/
def insertByDist (p : Int × Int) : List (Int × Int) → List (Int × Int)
  | [] => [p]
  | q :: rest => if p.1 < q.1 then p :: q :: rest else q :: insertByDist p rest

/-- Model of `faiss.IndexFlatL2.search` on a stored vector list: k pairs of
    (squared distance, row label), nearest first, padded with
    `(floatMaxDistance, -1)` past `ntotal`. -/
def faiss_flat_search (vectors : List (List Int)) (query : List Int)
    (k : Nat) : List (Int × Int) :=
  let scored := vectors.enum.map (fun p => (sqDist query p.2, (p.1 : Int)))
  let sorted := scored.foldr insertByDist []
  sorted.take k ++ List.replicate (k - vectors.length) (floatMaxDistance, -1)

/-- Python list indexing: a negative index counts from the end
    (`metadata[-1]` is the last element); out of range raises `IndexError`,
    modelled as `none`. -/
def pythonListGet (l : List α) (i : Int) : Option α :=
  if i < 0 then
    if (-i).toNat ≤ l.length then l[l.length - (-i).toNat]? else none
  else l[i.toNat]?

/-- One search hit as assembled by `FAISSService.search` (lines 178-184). -/
structure SearchResult where
  rank : Nat
  distance : Int
  metadata : Chunk
deriving Repr, DecidableEq

/-- The result-assembly loop of `FAISSService.search` (lines 172-185):
    `for rank, (distance, idx) in enumerate(zip(distances[0], indices[0]), start=1)`;
    skip when a threshold is given and `distance > distance_threshold`;
    skip when `idx >= len(metadata)`; otherwise append
    `{rank, distance, metadata: metadata[idx]}` (Python indexing, so a
    negative `idx` wraps around; a wrap past the front would raise). -/
def searchLoop (metadata : List Chunk) (distance_threshold : Option Int) :
    List (Nat × (Int × Int)) → Except Unit (List SearchResult)
  | [] => .ok []
  | (rank, (distance, idx)) :: rest =>
      if (match distance_threshold with
          | some t => decide (t < distance)
          | none => false) = true then
        searchLoop metadata distance_threshold rest
      else if (metadata.length : Int) ≤ idx then
        searchLoop metadata distance_threshold rest
      else
        match pythonListGet metadata idx with
        | some m =>
            (searchLoop metadata distance_threshold rest).map
              (fun rs => { rank := rank, distance := distance,
                           metadata := m } :: rs)
        | none => .error ()

/-- FAISSService.search (faiss_utils.py lines 157-185): run the flat-index
    k-NN search, then filter and pair each label with its metadata entry. -/
def FAISSService.search (index_vectors : List (List Int))
    (metadata : List Chunk) (query_embedding : List Int) (k : Nat)
    (distance_threshold : Option Int) : Except Unit (List SearchResult) :=
  searchLoop metadata distance_threshold
    ((faiss_flat_search index_vectors query_embedding k).enumFrom 1)

/-- Concrete chunk metadata entry used in the search scenario. -/
def sampleChunk (i : Nat) : Chunk :=
  { chunk_id := "doc1_chunk_" ++ toString i
    document_id := "doc1"
    kb_id := "kb1"
    text := "t" ++ toString i
    type := "text"
    content := "t" ++ toString i
    source := "a.pdf"
    page := "Unknown"
    chunk_index := i
    token_count := 1 }

/-- Metadata array of the 3-vector scenario index. -/
def sampleMetadata : List Chunk := [sampleChunk 0, sampleChunk 1, sampleChunk 2]

/-- The three stored vectors of the scenario index. -/
def sampleVectors : List (List Int) := [[0, 0], [3, 0], [5, 0]]

/-! ## Embedding client retry loop
    Source: `backend/lambdas/shared/faiss_utils.py`,
    `FAISSService.create_embedding` (lines 25-57).  The Bedrock call is an
    external effect; each attempt's outcome (an embedding payload, or a
    client error carrying an AWS error code) is an input to the model. -/

/-- Outcome of one `bedrock_client.invoke_model` attempt. -/
inductive AttemptOutcome where
  | ok (embedding : List Int)
  | err (code : String)
deriving Repr, DecidableEq

/-- The codes retried by `create_embedding` (lines 45-48). -/
def isThrottleCode (c : String) : Bool :=
  c == "ThrottlingException" || c == "TooManyRequestsException"

/-- max_retries (line 29). -/
def maxRetries : Nat := 5

/-- The `for attempt in range(max_retries)` loop of `create_embedding`
    (lines 32-57): return the payload on success; on a throttling error
    before the last attempt, sleep `base_delay * 2 ** attempt` seconds
    (base_delay = 1.0) and retry; otherwise re-raise.  The returned list
    records the sleeps performed, in seconds. -/
def create_embedding_loop (outcomes : Nat → AttemptOutcome) :
    List Nat → Except String (List Int) × List Nat
  | [] => (Except.ok [], [])
  | attempt :: rest =>
      match outcomes attempt with
      | .ok e => (Except.ok e, [])
      | .err c =>
          if attempt < maxRetries - 1 ∧ isThrottleCode c = true then
            let r := create_embedding_loop outcomes rest
            (r.1, 2 ^ attempt :: r.2)
          else (Except.error c, [])

/-- FAISSService.create_embedding over the outcomes of its five attempts. -/
def create_embedding (outcomes : Nat → AttemptOutcome) :
    Except String (List Int) × List Nat :=
  create_embedding_loop outcomes (List.range maxRetries)

/-- Attempt outcomes used by the C8 witness: the first Bedrock call is
    throttled, the second succeeds. -/
def witnessOutcomes (a : Nat) : AttemptOutcome :=
  if a = 0 then AttemptOutcome.err "ThrottlingException"
  else AttemptOutcome.ok [7]

/-! ## Python string helpers
    Models of the CPython `str` operations used by `_create_chunks` and
    `_extract_pdf`: `find`, `in`, slicing, `strip`. -/

/-- First index at which `pat` occurs in a char list, or `none`. -/
def listFindSub (pat : List Char) : List Char → Nat → Option Nat
  | [], i => if pat = [] then some i else none
  | c :: rest, i =>
      if pat.isPrefixOf (c :: rest) then some i
      else listFindSub pat rest (i + 1)

/-- Python `s.find(pat)`: index of the first occurrence, `-1` if absent. -/
def pythonFind (s pat : String) : Int :=
  match listFindSub pat.data s.data 0 with
  | some i => (i : Int)
  | none => -1

/-- Python `s.find(pat, start)`. -/
def pythonFindFrom (s pat : String) (start : Nat) : Int :=
  match listFindSub pat.data (s.data.drop start) 0 with
  | some i => ((i + start : Nat) : Int)
  | none => -1

/-- Python `pat in s`. -/
def pythonContains (s pat : String) : Bool :=
  (listFindSub pat.data s.data 0).isSome

/-- Python `s[a:b]` for nonnegative bounds. -/
def pythonSlice (s : String) (a b : Nat) : String :=
  String.mk ((s.data.drop a).take (b - a))

/-- Python `s.strip()`: drop leading and trailing whitespace. -/
def pyStrip (cs : List Char) : List Char :=
  ((cs.dropWhile Char.isWhitespace).reverse.dropWhile Char.isWhitespace).reverse

/-! ## Chunker
    Source: `document_processing.py`, `DocumentProcessingService`:
    `_count_tokens` (lines 44-47), `_create_chunks` (lines 187-227) and
    `download_and_process` (lines 229-268).  The langchain text splitter is
    external and is a parameter (`split_text`); so is the token counter the
    splitter and `_create_chunks` consult. -/

/-- One extracted content segment (`{"type", "content", "page"}` dict). -/
structure ContentItem where
  type : String
  content : String
  page : String
deriving Repr, DecidableEq

/-- The `_count_tokens` fallback when no tokenizer is available (line 47):
    `max(1, len(text) // 4)`. -/
def count_tokens_fallback (text : String) : Nat :=
  max 1 (text.length / 4)

/-- Page-marker recovery inside `_create_chunks` (lines 203-211): if the
    chunk text contains "## Page ", slice out the page number between the
    marker and the following " ##"; otherwise keep the item's page. -/
def extractChunkPage (chunk_text : String) (page_num : String) : String :=
  if pythonContains chunk_text "## Page " then
    let start := (pythonFind chunk_text "## Page ") + 8
    let e := pythonFindFrom chunk_text " ##" start.toNat
    if e ≠ -1 then pythonSlice chunk_text start.toNat e.toNat else page_num
  else page_num

/-- One metadata dict appended by `_create_chunks` (lines 213-224). -/
def chunkRecord (count_tokens : String → Nat)
    (document_id kb_id filename : String) (chunk_text page_num : String)
    (chunk_index : Nat) : Chunk :=
  { chunk_id := document_id ++ "_chunk_" ++ toString chunk_index
    document_id := document_id
    kb_id := kb_id
    text := chunk_text
    type := "text"
    content := chunk_text
    source := filename
    page := extractChunkPage chunk_text page_num
    chunk_index := chunk_index
    token_count := count_tokens chunk_text }

/-- The inner `for chunk_text in text_chunks` loop of `_create_chunks`,
    threading `chunk_index`. -/
def create_chunks_texts (count_tokens : String → Nat)
    (document_id kb_id filename page_num : String) :
    List String → Nat → List Chunk
  | [], _ => []
  | t :: rest, chunk_index =>
      chunkRecord count_tokens document_id kb_id filename t page_num
          chunk_index
        :: create_chunks_texts count_tokens document_id kb_id filename
            page_num rest (chunk_index + 1)

/-- The outer `for item in content_items` loop of `_create_chunks`;
    `chunk_index` carries across items. -/
def create_chunks_go (count_tokens : String → Nat)
    (split_text : String → List String)
    (document_id kb_id filename : String) :
    List ContentItem → Nat → List Chunk
  | [], _ => []
  | item :: rest, chunk_index =>
      if item.type = "text" then
        let texts := split_text item.content
        create_chunks_texts count_tokens document_id kb_id filename
            item.page texts chunk_index
          ++ create_chunks_go count_tokens split_text document_id kb_id
              filename rest (chunk_index + texts.length)
      else
        create_chunks_go count_tokens split_text document_id kb_id filename
          rest chunk_index

/-- DocumentProcessingService._create_chunks (lines 187-227): chunk records
    numbered from `start_index` (default 0 in the source signature). -/
def create_chunks (count_tokens : String → Nat)
    (split_text : String → List String) (content_items : List ContentItem)
    (document_id kb_id filename : String) (start_index : Nat) : List Chunk :=
  create_chunks_go count_tokens split_text document_id kb_id filename
    content_items start_index

/-- DocumentProcessingService.download_and_process (lines 229-268): given
    the `_extract_content` result (a pair of content items and the
    extraction method), raise `ValueError` when nothing was extracted,
    otherwise return `(chunks, extraction_method)` — a pair. -/
def download_and_process (count_tokens : String → Nat)
    (split_text : String → List String)
    (extracted : List ContentItem × String)
    (document_id kb_id filename : String) (chunk_index_start : Nat) :
    Except String (List Chunk × String) :=
  if extracted.1 = [] then Except.error "No content extracted"
  else
    Except.ok
      (create_chunks count_tokens split_text extracted.1 document_id kb_id
        filename chunk_index_start,
       extracted.2)

/-- The ingestion worker's call to `download_and_process`
    (kb_indexing_worker.py lines 132-138): it passes no
    `chunk_index_start`, so numbering always starts at the default 0, for
    the first and every later document of a KB alike.  (The same call also
    binds the returned `(chunks, extraction_method)` pair itself to the
    `chunks` variable instead of unpacking it.) -/
def worker_download_and_process (count_tokens : String → Nat)
    (split_text : String → List String)
    (extracted : List ContentItem × String)
    (document_id kb_id filename : String) :
    Except String (List Chunk × String) :=
  download_and_process count_tokens split_text extracted document_id kb_id
    filename 0

/-- Helper for `pipeSplit`: split a char list at every pipe. -/
def pipeSplitAux : List Char → List Char → List String
  | acc, [] => [String.mk acc.reverse]
  | acc, c :: rest =>
      if c = '|' then String.mk acc.reverse :: pipeSplitAux [] rest
      else pipeSplitAux (c :: acc) rest

/-- A concrete stand-in for the langchain splitter in the C2 scenario:
    split on the pipe character. -/
def pipeSplit (s : String) : List String := pipeSplitAux [] s.data

/-- Extraction result of scenario document A (3 chunks after splitting). -/
def docAExtracted : List ContentItem × String :=
  ([{ type := "text", content := "alpha|beta|gamma", page := "Unknown" }],
   "standard")

/-- Extraction result of scenario document B (2 chunks after splitting). -/
def docBExtracted : List ContentItem × String :=
  ([{ type := "text", content := "delta|epsilon", page := "Unknown" }],
   "standard")

/-! ## PDF extraction with OCR fallback
    Source: `document_processing.py`,
    `DocumentProcessingService._extract_pdf` (lines 102-131).  A page is
    represented by the text `page.extract_text()` returns for it; the
    Textract call `_extract_text_with_textract` is an external effect whose
    result text is an input (its failure modes all surface as `""`). -/

/-- The page-by-page accumulation of `extracted_text` (lines 111-115):
    append a page marker and the page text for every page whose extracted
    text is non-empty (1-based page numbers). -/
def pdfExtractedText (pages : List String) : String :=
  (pages.enum.foldl
    (fun acc p =>
      if p.2 ≠ "" then
        acc ++ "\n\n## Page " ++ toString (p.1 + 1) ++ " ##\n\n" ++ p.2
      else acc)
    "")

/-- `valid_text_count` (lines 111-115): total `len(page_text.strip())`
    over pages with non-empty extracted text. -/
def pdfValidTextCount (pages : List String) : Nat :=
  pages.foldl
    (fun acc p => if p ≠ "" then acc + (pyStrip p.data).length else acc) 0

/-- `avg_chars_per_page` (line 118): float division, exact here; 0 for a
    PDF with no pages. -/
def avgCharsPerPage (pages : List String) : ℚ :=
  if pages.length = 0 then 0
  else (pdfValidTextCount pages : ℚ) / (pages.length : ℚ)

/-- Python truthiness of the optional `s3_key` argument. -/
def s3KeyTruthy : Option String → Bool
  | some k => k != ""
  | none => false

/-- The tail of `_extract_pdf` (lines 127-131): return the standard
    extracted text when its strip is non-empty, else `([], "failed")`. -/
def pdfStandardReturn (extracted_text : String) :
    List ContentItem × String :=
  if pyStrip extracted_text.data ≠ [] then
    ([{ type := "text", content := extracted_text, page := "Unknown" }],
     "standard")
  else ([], "failed")

/-- DocumentProcessingService._extract_pdf (lines 102-131).  The second
    component of the result records whether the Textract OCR fallback was
    invoked.  When the average is below 50 and an s3 key is present, the
    Textract result overwrites `extracted_text`; if that result is empty
    the subsequent strip check therefore fails and `([], "failed")` is
    returned. -/
def extract_pdf (pages : List String) (s3_key : Option String)
    (textract_text : String) : (List ContentItem × String) × Bool :=
  let extracted_text := pdfExtractedText pages
  if avgCharsPerPage pages < 50 then
    if s3KeyTruthy s3_key = true then
      if textract_text ≠ "" then
        (([{ type := "text", content := textract_text, page := "Unknown" }],
          "textract"), true)
      else ((pdfStandardReturn textract_text), true)
    else (pdfStandardReturn extracted_text, false)
  else (pdfStandardReturn extracted_text, false)

/-- A single 5000-character page. -/
def bigPage : String := String.mk (List.replicate 5000 'a')

/-! ## Index Store save and the worker's locked region
    Source: `faiss_utils.py` `create_index` (lines 73-81),
    `save_index_to_s3` (lines 86-128), `create_embeddings_batch`
    (lines 59-71), and `kb_indexing_worker.py` `_process_record`
    (lines 178-218: the region between lock acquisition and the `finally`
    that releases it).  A FAISS flat index is represented by its stored
    vector rows; `ntotal` is their count. -/

/-- The config manifest `save_index_to_s3` writes (lines 115-119). -/
structure IndexConfig where
  dimension : Nat
  count : Nat
  metadata_count : Nat
deriving Repr, DecidableEq

/-- The three co-located objects one save writes under the KB prefix. -/
structure SavedArtifact where
  index : List (List Int)
  metadata : List Chunk
  config : IndexConfig
deriving Repr, DecidableEq

/-- Default embedding dimension of FAISSService (faiss_utils.py line 16). -/
def defaultEmbeddingDimension : Nat := 1024

/-- FAISSService.create_index (lines 73-81): a fresh IndexFlatL2 of the
    service's dimension holding exactly the given vectors. -/
def create_index (embedding_dimension : Nat)
    (embeddings : List (List Int)) : List (List Int) :=
  embeddings

/-- FAISSService.save_index_to_s3 (lines 86-128): writes the index object,
    the metadata pickle and the config
    `{dimension, count: index.ntotal, metadata_count: len(metadata)}`. -/
def save_index_to_s3 (embedding_dimension : Nat)
    (index : List (List Int)) (metadata : List Chunk) : SavedArtifact :=
  { index := index
    metadata := metadata
    config := { dimension := embedding_dimension
                count := index.length
                metadata_count := metadata.length } }

/-- FAISSService.create_embeddings_batch (lines 59-71):
    `for start in range(0, len(texts), batch_size)` then one
    `create_embedding` per text of the batch, appended in order.  (Python's
    `range` raises for step 0; only positive batch sizes are meaningful.) -/
def create_embeddings_batch (embed : String → List Int)
    (texts : List String) (batch_size : Nat) : List (List Int) :=
  let starts := List.range' 0 ((texts.length + batch_size - 1) / batch_size)
    batch_size
  starts.foldl
    (fun embeddings start =>
      embeddings ++ ((texts.drop start).take batch_size).map embed)
    []

/-- Failures the locked region can raise past the lock. -/
inductive WorkerErr where
  | saveError
  | docUpdateError
  | kbUpdateError
deriving Repr, DecidableEq

/-- Observable repository and Index Store operations of the locked region,
    in execution order. -/
inductive WorkerOp where
  | loadIndex
  | saveIndex (artifact : SavedArtifact)
  | docStatus (status : String) (chunk_count : Nat)
  | kbUpdate (indexStatus : String)
  | releaseLock (lock_id : String)
deriving Repr, DecidableEq

/-- The external outcomes the locked region can encounter: the result of
    `load_index_from_s3` (any exception in the load-and-append block takes
    the create-new-index path), and whether the save and the two record
    updates raise. -/
structure WorkerEnv where
  loadResult : Except Unit (List (List Int) × List Chunk)
  saveFails : Bool
  docUpdateFails : Bool
  kbUpdateFails : Bool

/-- The locked region of `_process_record` (kb_indexing_worker.py lines
    178-218): inside `try`, load the existing index and append (or create a
    new index from the embeddings when the load block raises), save, mark
    the document `indexed`, mark the KB `ready`; the `finally` releases the
    lock whatever happened.  Returns the outcome and the executed
    operations in order. -/
def worker_locked_region (env : WorkerEnv) (chunks : List Chunk)
    (embeddings : List (List Int)) (lock_id : String) :
    Except WorkerErr Unit × List WorkerOp :=
  let body : Except WorkerErr Unit × List WorkerOp :=
    let loaded : List (List Int) × List Chunk × List WorkerOp :=
      match env.loadResult with
      | Except.ok (existing_index, existing_metadata) =>
          (existing_index ++ embeddings, existing_metadata ++ chunks,
           [WorkerOp.loadIndex])
      | Except.error _ =>
          (create_index defaultEmbeddingDimension embeddings, chunks,
           [WorkerOp.loadIndex])
    if env.saveFails then (Except.error WorkerErr.saveError, loaded.2.2)
    else
      let saveOp := WorkerOp.saveIndex
        (save_index_to_s3 defaultEmbeddingDimension loaded.1 loaded.2.1)
      if env.docUpdateFails then
        (Except.error WorkerErr.docUpdateError, loaded.2.2 ++ [saveOp])
      else if env.kbUpdateFails then
        (Except.error WorkerErr.kbUpdateError,
         loaded.2.2 ++ [saveOp, WorkerOp.docStatus "indexed" chunks.length])
      else
        (Except.ok (),
         loaded.2.2 ++ [saveOp, WorkerOp.docStatus "indexed" chunks.length,
           WorkerOp.kbUpdate "ready"])
  (body.1, body.2 ++ [WorkerOp.releaseLock lock_id])

/-- Concrete chunk for the C4 witness scenario. -/
def c4Chunk : Chunk :=
  { chunk_id := "docX_chunk_0"
    document_id := "docX"
    kb_id := "kbX"
    text := "hello world"
    type := "text"
    content := "hello world"
    source := "x.txt"
    page := "Unknown"
    chunk_index := 0
    token_count := 2 }

/-- Concrete environment for the C4 witness: no prior index, every write
    succeeds. -/
def c4Env : WorkerEnv :=
  { loadResult := Except.error ()
    saveFails := false
    docUpdateFails := false
    kbUpdateFails := false }

/-- Embedding stub for the C4 witness. -/
def c4Embed : String → List Int := fun _ => [0, 1]

/-- Concrete environment for the C6 witness: the save step raises. -/
def c6Env : WorkerEnv :=
  { loadResult := Except.error ()
    saveFails := true
    docUpdateFails := false
    kbUpdateFails := false }

/-! ## Query Service
    Source: `backend/lambdas/kb_query.py`, `query_knowledge_base`
    (lines 75-172), `_build_context` (175-192), `_build_prompt` (195-230),
    and `kb_repositories.py` `KnowledgeBaseRepository.get_by_id`
    (lines 97-102, a query on the kb-id global index, keyed by kb id
    alone).  External collaborators (the DynamoDB table, the S3 artifact,
    the embedding and generation providers) are inputs in `QueryEnv`; the
    handler's observable calls to them are recorded as `QueryEffect`s. -/

/-- The fields of a KnowledgeBase record the query path reads. -/
structure KBRecord where
  userId : String
  indexStatus : String
  embeddingModel : String
deriving Repr, DecidableEq

/-- The parsed JSON request body (lines 100-106). -/
structure QueryBody where
  query : String
  modelId : String
  k : Option Int
  distanceThreshold : Option Int
  history : List (String × String)
deriving Repr, DecidableEq

/-- The API Gateway event: Cognito claims sub, path parameter, raw body. -/
structure QueryEvent where
  userId : Option String
  kbId : Option String
  body : Option QueryBody
deriving Repr, DecidableEq

/-- External collaborators of the query path. -/
structure QueryEnv where
  get_by_id : String → Option KBRecord
  loadIndex : String → String → Except Unit (List (List Int) × List Chunk)
  embedQuery : String → List Int
  generate : String → Except Unit String

/-- The handler's possible responses (body strings elided; the constructor
    identifies which `create_response`/`create_error_response` call made
    it). -/
inductive QueryResponse where
  | unauthorized
  | kbIdRequired
  | notFound
  | notReady
  | bodyRequired
  | queryRequired
  | modelIdRequired
  | loadFailed
  | noResults
  | internalError
  | llmFailed
  | success (answer : String) (sources : List String)
      (retrievedChunks : Nat)
deriving Repr, DecidableEq

/-- HTTP status of each response (kb_query.py lines 80-161). -/
def QueryResponse.statusCode : QueryResponse → Nat
  | .unauthorized => 401
  | .kbIdRequired => 400
  | .notFound => 404
  | .notReady => 400
  | .bodyRequired => 400
  | .queryRequired => 400
  | .modelIdRequired => 400
  | .loadFailed => 500
  | .noResults => 200
  | .internalError => 500
  | .llmFailed => 500
  | .success _ _ _ => 200

/-- Calls the query path makes on external stores and providers. -/
inductive QueryEffect where
  | recordRead
  | blobLoad
  | embedCall
  | searchCall
  | generateCall
  | recordWrite
deriving Repr, DecidableEq

/-- Python `s.strip()` on a String. -/
def pyStripStr (s : String) : String := String.mk (pyStrip s.data)

/-- The citation label of one result (lines 185-187): the source filename
    plus a page suffix when the page is truthy and not "Unknown". -/
def sourceRef (m : Chunk) : String :=
  m.source ++
    (if m.page ≠ "" ∧ m.page ≠ "Unknown" then " (Page " ++ m.page ++ ")"
     else "")

/-- The `_build_context` loop (lines 179-191): collect context parts and
    de-duplicated source labels in first-seen order. -/
def build_context_fold (pairs : List (Nat × SearchResult)) :
    List String × List String :=
  pairs.foldl
    (fun acc p =>
      let m := p.2.metadata
      let ref := sourceRef m
      (acc.1 ++ ["--- SOURCE " ++ toString p.1 ++ ": " ++ ref ++ " ---\n"
        ++ m.text ++ "\n"],
       if ref ∈ acc.2 then acc.2 else acc.2 ++ [ref]))
    ([], [])

/-- kb_query._build_context (lines 175-192). -/
def build_context (results : List SearchResult) : String × List String :=
  let r := build_context_fold (results.enumFrom 1)
  (String.intercalate "\n" r.1, r.2)

/-- kb_query._build_prompt (lines 195-230): the grounded prompt, with the
    last five history messages and the de-duplicated source list. -/
def build_prompt (query_text context : String) (sources : List String)
    (history : List (String × String)) : String :=
  let sources_str := if sources = [] then "N/A"
    else String.intercalate "\n" (sources.map (fun s => "- " ++ s))
  let history_str := if history = [] then ""
    else "Conversation History:\n"
      ++ String.intercalate "\n"
          ((history.drop (history.length - 5)).map
            (fun m => m.1.toUpper ++ ": " ++ m.2))
      ++ "\n\n"
  "You are a helpful and intelligent assistant. Your goal is to answer the user\x27s question using the provided Knowledge Base context.\n\n"
    ++ history_str
    ++ "Context from Knowledge Base:\n"
    ++ context
    ++ "\n\nInstructions:\n1. Analyze the context above to find any information relevant to the user\x27s question.\n2. Even if the exact answer is not stated, summarize what the documents say about the topic.\n3. If the documents contradict the premise of the question (e.g. user asks \"how to do X\" but documents say \"X is prohibited\"), explain that findings.\n4. Only state \"I cannot find the answer\" if the context is completely irrelevant to the topic.\n5. Cite your sources using [Source X] format.\n\nAvailable Sources:\n"
    ++ sources_str
    ++ "\n\nUser Question: "
    ++ query_text
    ++ "\n\nAnswer:"

/-- kb_query.query_knowledge_base (lines 75-172), with `with_error_handling`
    turning unhandled exceptions into 500s.  Checks run in source order:
    user id, kb id, record lookup (by kb id alone), readiness, body, query,
    model id; only then the index load under the record owner's user id,
    the query embedding, the search with `k` clamped to [1, 20] (default 8,
    Python `or` semantics for a zero/absent k), the empty-result
    short-circuit, and the generation call. -/
def query_knowledge_base (env : QueryEnv) (event : QueryEvent) :
    QueryResponse × List QueryEffect :=
  match event.userId with
  | none => (QueryResponse.unauthorized, [])
  | some user_id =>
    if user_id = "" then (QueryResponse.unauthorized, [])
    else
      match event.kbId with
      | none => (QueryResponse.kbIdRequired, [])
      | some kb_id =>
        if kb_id = "" then (QueryResponse.kbIdRequired, [])
        else
          match env.get_by_id kb_id with
          | none => (QueryResponse.notFound, [QueryEffect.recordRead])
          | some knowledge_base =>
            if knowledge_base.indexStatus ≠ "ready" then
              (QueryResponse.notReady, [QueryEffect.recordRead])
            else
              match event.body with
              | none => (QueryResponse.bodyRequired, [QueryEffect.recordRead])
              | some body =>
                let query_text := pyStripStr body.query
                let model_id := pyStripStr body.modelId
                let k : Int := match body.k with
                  | none => 8
                  | some v => if v = 0 then 8 else v
                if query_text = "" then
                  (QueryResponse.queryRequired, [QueryEffect.recordRead])
                else if model_id = "" then
                  (QueryResponse.modelIdRequired, [QueryEffect.recordRead])
                else
                  match env.loadIndex kb_id knowledge_base.userId with
                  | Except.error _ =>
                      (QueryResponse.loadFailed,
                       [QueryEffect.recordRead, QueryEffect.blobLoad])
                  | Except.ok (index_vectors, metadata) =>
                    let query_embedding := env.embedQuery query_text
                    match FAISSService.search index_vectors metadata
                        query_embedding (max 1 (min k 20)).toNat
                        body.distanceThreshold with
                    | Except.error _ =>
                        (QueryResponse.internalError,
                         [QueryEffect.recordRead, QueryEffect.blobLoad,
                          QueryEffect.embedCall, QueryEffect.searchCall])
                    | Except.ok results =>
                      if results = [] then
                        (QueryResponse.noResults,
                         [QueryEffect.recordRead, QueryEffect.blobLoad,
                          QueryEffect.embedCall, QueryEffect.searchCall])
                      else
                        let cs := build_context results
                        let prompt := build_prompt query_text cs.1 cs.2
                          body.history
                        match env.generate prompt with
                        | Except.error _ =>
                            (QueryResponse.llmFailed,
                             [QueryEffect.recordRead, QueryEffect.blobLoad,
                              QueryEffect.embedCall, QueryEffect.searchCall,
                              QueryEffect.generateCall])
                        | Except.ok answer =>
                            (QueryResponse.success answer cs.2
                              results.length,
                             [QueryEffect.recordRead, QueryEffect.blobLoad,
                              QueryEffect.embedCall, QueryEffect.searchCall,
                              QueryEffect.generateCall])

/-- Environment for the C7 witness: the record store holds one KB whose
    index was never built. -/
def c7Env : QueryEnv :=
  { get_by_id := fun kb_id =>
      if kb_id = "kb-1" then
        some { userId := "owner-1", indexStatus := "empty",
               embeddingModel := "amazon.titan-embed-text-v2:0" }
      else none
    loadIndex := fun _ _ => Except.error ()
    embedQuery := fun _ => []
    generate := fun _ => Except.error () }

/-- Environment for the C10 witness. -/
def c10Env : QueryEnv :=
  { get_by_id := fun _ => none
    loadIndex := fun _ _ => Except.error ()
    embedQuery := fun _ => []
    generate := fun _ => Except.error () }

/-- C3: in every reachable state of the KB lock record, at most one lease id
    is recorded, and an acquire attempt (by any job, with any lease id)
    cannot succeed — and leaves the record unchanged — while an unexpired
    non-empty lease is recorded. -/
theorem mutual_exclusion_of_index_lock :
    ∀ s : LockState, LockReachable s →
      (recordedLeaseIds s).length ≤ 1 ∧
      (∀ (l : String) (t : Int) (lock_id : String) (nowMs ttl_seconds : Int),
        s = some (l, t) → l ≠ "" → ¬ t < nowMs - ttl_seconds * 1000 →
        update_index_lock s lock_id nowMs ttl_seconds = (s, false)) := by
  intro s _
  refine ⟨?_, ?_⟩
  · cases s <;> simp [recordedLeaseIds]
  · intro l t lock_id nowMs ttl_seconds hs hl ht
    subst hs
    simp [update_index_lock, hl, ht]

/-- Witness for C3 at a concrete reachable state: job A holds the lease
    acquired at t=1000ms; at t=1500ms with the default 300s TTL, job B's
    acquire fails and the record is unchanged. -/
theorem mutual_exclusion_of_index_lock_witness :
    (recordedLeaseIds (some ("jobA", 1000))).length ≤ 1 ∧
    update_index_lock (some ("jobA", 1000)) "jobB" 1500 defaultLockTtlSeconds
      = (some ("jobA", 1000), false) := by
  have hreach : LockReachable (some ("jobA", (1000 : Int))) := by
    have h := LockReachable.acq none "jobA" 1000 defaultLockTtlSeconds
      LockReachable.init
    simpa [update_index_lock] using h
  have h := mutual_exclusion_of_index_lock (some ("jobA", 1000)) hreach
  exact ⟨h.1, h.2 "jobA" 1000 "jobB" 1500 defaultLockTtlSeconds rfl
    (by decide) (by decide)⟩

/-- C5: `update_index_lock` succeeds exactly when no lease is recorded, the
    recorded lease id is empty, or the recorded timestamp is older than
    now minus the TTL (in milliseconds; default `ttl_seconds` is 300).  On
    success it records the caller's lease id with the current timestamp;
    on failure the record is unchanged. -/
theorem update_index_lock_characterization :
    ∀ (s : LockState) (lock_id : String) (nowMs ttl_seconds : Int),
      ((update_index_lock s lock_id nowMs ttl_seconds).2 = true ↔
        (s = none ∨ ∃ l t, s = some (l, t) ∧
          (l = "" ∨ t < nowMs - ttl_seconds * 1000))) ∧
      ((update_index_lock s lock_id nowMs ttl_seconds).2 = true →
        (update_index_lock s lock_id nowMs ttl_seconds).1
          = some (lock_id, nowMs)) ∧
      ((update_index_lock s lock_id nowMs ttl_seconds).2 = false →
        (update_index_lock s lock_id nowMs ttl_seconds).1 = s) := by
  intro s lock_id nowMs ttl_seconds
  match s with
  | none => simp [update_index_lock]
  | some (l, t) =>
      simp only [update_index_lock]
      by_cases h : l = "" ∨ t < nowMs - ttl_seconds * 1000
      · rw [if_pos h]
        exact ⟨⟨fun _ => Or.inr ⟨l, t, rfl, h⟩, fun _ => rfl⟩,
          fun _ => rfl, fun hf => absurd hf (by simp)⟩
      · rw [if_neg h]
        refine ⟨⟨fun hf => absurd hf (by simp), ?_⟩,
          fun ht => absurd ht (by simp), fun _ => rfl⟩
        rintro (hnone | ⟨l', t', heq, hcond⟩)
        · exact absurd hnone (by simp)
        · rw [Option.some.injEq, Prod.mk.injEq] at heq
          rcases heq with ⟨hl, htt⟩
          subst hl
          subst htt
          exact absurd hcond h

/-- Witness for C5: a lease stamped at t=0 is expired at now = 301000ms with
    the default TTL of 300s, so a different lease id acquires it even though
    it was never released. -/
theorem update_index_lock_characterization_witness :
    (update_index_lock (some ("crashed", 0)) "fresh" 301000
        defaultLockTtlSeconds).2 = true ∧
    (update_index_lock (some ("crashed", 0)) "fresh" 301000
        defaultLockTtlSeconds).1 = some ("fresh", 301000) := by
  have h := update_index_lock_characterization (some ("crashed", 0)) "fresh"
    301000 defaultLockTtlSeconds
  have hsucc : (update_index_lock (some ("crashed", 0)) "fresh" 301000
      defaultLockTtlSeconds).2 = true := by
    exact h.1.mpr (Or.inr ⟨"crashed", 0, rfl, Or.inr (by decide)⟩)
  exact ⟨hsucc, h.2.1 hsucc⟩

/-- C1 (claim refuted by the code): a query with `k = 8` and no distance
    threshold against an index of 3 vectors returns 8 results, not at most
    3 — FAISS pads the missing 5 slots with label `-1`, the guard
    `idx >= len(metadata)` does not reject `-1`, and Python's `metadata[-1]`
    resolves to the last chunk, so the 5 padded results all carry the final
    chunk's metadata. -/
theorem search_k8_on_three_vectors_returns_eight_results :
    (FAISSService.search sampleVectors sampleMetadata [0, 0] 8 none).toOption.map
        (fun rs => (rs.length, (rs.drop 3).map SearchResult.metadata))
      = some (8, [sampleChunk 2, sampleChunk 2, sampleChunk 2,
                  sampleChunk 2, sampleChunk 2]) := by
  decide

lemma create_embedding_loop_cons_throttle (outcomes : Nat → AttemptOutcome)
    (a : Nat) (rest : List Nat) (c : String)
    (h : outcomes a = AttemptOutcome.err c) (ht : isThrottleCode c = true)
    (ha : a < maxRetries - 1) :
    create_embedding_loop outcomes (a :: rest)
      = ((create_embedding_loop outcomes rest).1,
         2 ^ a :: (create_embedding_loop outcomes rest).2) := by
  simp [create_embedding_loop, h, ht, ha]

lemma create_embedding_loop_cons_ok (outcomes : Nat → AttemptOutcome)
    (a : Nat) (rest : List Nat) (e : List Int)
    (h : outcomes a = AttemptOutcome.ok e) :
    create_embedding_loop outcomes (a :: rest) = (Except.ok e, []) := by
  simp [create_embedding_loop, h]

lemma create_embedding_loop_cons_raise (outcomes : Nat → AttemptOutcome)
    (a : Nat) (rest : List Nat) (c : String)
    (h : outcomes a = AttemptOutcome.err c)
    (hng : ¬ (a < maxRetries - 1 ∧ isThrottleCode c = true)) :
    create_embedding_loop outcomes (a :: rest) = (Except.error c, []) := by
  simp only [create_embedding_loop, h]
  rw [if_neg hng]

lemma create_embedding_throttle_prefix (outcomes : Nat → AttemptOutcome) :
    ∀ (j n : Nat), j + n = maxRetries → 1 ≤ n →
      (∀ a, a < j → ∃ c, outcomes a = AttemptOutcome.err c ∧
        isThrottleCode c = true) →
      create_embedding outcomes
        = ((create_embedding_loop outcomes (List.range' j n)).1,
           (List.range j).map (fun a => 2 ^ a)
             ++ (create_embedding_loop outcomes (List.range' j n)).2) := by
  intro j
  induction j with
  | zero =>
      intro n hn _ _
      have hnn : n = maxRetries := by omega
      subst hnn
      simp [create_embedding, List.range_eq_range']
  | succ j ih =>
      intro n hn hn1 hpre
      have hprev := ih (n + 1) (by omega) (by omega)
        (fun a ha => hpre a (by omega))
      obtain ⟨c, hc, htc⟩ := hpre j (by omega)
      have hcons : List.range' j (n + 1) = j :: List.range' (j + 1) n := by
        simp [List.range'_succ]
      rw [hcons] at hprev
      rw [create_embedding_loop_cons_throttle outcomes j _ c hc htc
        (by omega)] at hprev
      rw [hprev]
      simp [List.range_succ]

/-- C8: `create_embedding` retries only on the provider rate-limit codes
    ThrottlingException / TooManyRequestsException, sleeping 2^attempt
    seconds (1s, 2s, 4s, 8s) between attempts for up to 5 total attempts;
    after five throttled attempts the throttling error propagates, and a
    non-throttling error propagates immediately from the attempt on which
    it occurred, with no further sleeps. -/
theorem create_embedding_retries_only_on_throttling :
    ∀ (outcomes : Nat → AttemptOutcome) (j : Nat), j < maxRetries →
      (∀ a, a < j → ∃ c, outcomes a = AttemptOutcome.err c ∧
        isThrottleCode c = true) →
      (∀ e, outcomes j = AttemptOutcome.ok e →
        create_embedding outcomes
          = (Except.ok e, (List.range j).map (fun a => 2 ^ a))) ∧
      (∀ c, outcomes j = AttemptOutcome.err c → isThrottleCode c = false →
        create_embedding outcomes
          = (Except.error c, (List.range j).map (fun a => 2 ^ a))) ∧
      (j = maxRetries - 1 → ∀ c, outcomes j = AttemptOutcome.err c →
        create_embedding outcomes
          = (Except.error c, (List.range j).map (fun a => 2 ^ a))) := by
  intro outcomes j hj hpre
  have hsplit := create_embedding_throttle_prefix outcomes j (maxRetries - j)
    (by omega) (by omega) hpre
  have hcons : List.range' j (maxRetries - j)
      = j :: List.range' (j + 1) (maxRetries - j - 1) := by
    obtain ⟨k, hk⟩ : ∃ k, maxRetries - j = k + 1 :=
      ⟨maxRetries - j - 1, by omega⟩
    rw [hk, List.range'_succ]
    simp
  rw [hcons] at hsplit
  refine ⟨?_, ?_, ?_⟩
  · intro e he
    rw [create_embedding_loop_cons_ok outcomes j _ e he] at hsplit
    simpa using hsplit
  · intro c hc hnt
    rw [create_embedding_loop_cons_raise outcomes j _ c hc
      (by simp [hnt])] at hsplit
    simpa using hsplit
  · intro hlast c hc
    rw [create_embedding_loop_cons_raise outcomes j _ c hc
      (by simp [hlast])] at hsplit
    simpa using hsplit

/-- Witness for C8: one throttled attempt then success yields the embedding
    after a single 1-second backoff sleep. -/
theorem create_embedding_retries_only_on_throttling_witness :
    create_embedding witnessOutcomes = (Except.ok [7], [1]) := by
  have h := create_embedding_retries_only_on_throttling witnessOutcomes 1
    (by decide)
    (fun a ha => by
      interval_cases a
      exact ⟨"ThrottlingException", rfl, rfl⟩)
  simpa using h.1 [7] rfl

/-- C2 (claim refuted by the code): ingesting document A (3 chunks) and
    then document B (2 chunks) through the worker's own call to
    `download_and_process` numbers A's chunks 0,1,2 and then B's chunks
    0,1 — not 3,4 as the claim states — because the worker never supplies
    a chunk-index offset; the final conjunct shows the offset parameter
    would have produced 3,4 had the worker passed it. -/
theorem worker_restarts_chunk_numbering_per_document :
    (worker_download_and_process count_tokens_fallback pipeSplit
        docAExtracted "docA" "kb1" "a.txt").toOption.map
        (fun p => p.1.map Chunk.chunk_index)
      = some [0, 1, 2] ∧
    (worker_download_and_process count_tokens_fallback pipeSplit
        docBExtracted "docB" "kb1" "b.txt").toOption.map
        (fun p => p.1.map Chunk.chunk_index)
      = some [0, 1] ∧
    (download_and_process count_tokens_fallback pipeSplit
        docBExtracted "docB" "kb1" "b.txt" 3).toOption.map
        (fun p => p.1.map Chunk.chunk_index)
      = some [3, 4] := by
  refine ⟨by decide, by decide, by decide⟩

lemma dropWhile_isWhitespace_replicate_a (n : Nat) :
    List.dropWhile Char.isWhitespace (List.replicate n 'a')
      = List.replicate n 'a' := by
  cases n with
  | zero => simp
  | succ k =>
      rw [List.replicate_succ, List.dropWhile_cons]
      have h : Char.isWhitespace 'a' = false := by decide
      simp [h]

lemma pyStrip_replicate_a (n : Nat) :
    pyStrip (List.replicate n 'a') = List.replicate n 'a' := by
  unfold pyStrip
  rw [dropWhile_isWhitespace_replicate_a, List.reverse_replicate,
    dropWhile_isWhitespace_replicate_a, List.reverse_replicate]

lemma pdfValidTextCount_bigPage : pdfValidTextCount [bigPage] = 5000 := by
  have hdata : bigPage.data = List.replicate 5000 'a' := rfl
  have hne : bigPage ≠ "" := by
    intro h
    have hlen : bigPage.data.length = ("" : String).data.length := by rw [h]
    rw [hdata, List.length_replicate] at hlen
    exact absurd hlen (by decide)
  unfold pdfValidTextCount
  rw [List.foldl_cons, List.foldl_nil, if_pos hne, hdata,
    pyStrip_replicate_a, List.length_replicate]

/-- C9: for every PDF reached through the S3 pipeline (a truthy s3 key),
    the Textract OCR fallback is invoked exactly when the average number
    of characters extracted per page is below 50; concretely, a one-page
    PDF extracting 10 characters triggers OCR and a one-page PDF
    extracting 5000 characters does not. -/
theorem textract_invoked_iff_average_below_threshold :
    (∀ (pages : List String) (s3_key : Option String) (tr : String),
      s3KeyTruthy s3_key = true →
      ((extract_pdf pages s3_key tr).2 = true ↔
        avgCharsPerPage pages < 50)) ∧
    (extract_pdf ["abcdefghij"] (some "docs/scan.pdf") "ocr text").2
      = true ∧
    (extract_pdf [bigPage] (some "docs/text.pdf") "").2 = false := by
  have hgen : ∀ (pages : List String) (s3_key : Option String) (tr : String),
      s3KeyTruthy s3_key = true →
      ((extract_pdf pages s3_key tr).2 = true ↔
        avgCharsPerPage pages < 50) := by
    intro pages s3_key tr hkey
    simp only [extract_pdf]
    by_cases havg : avgCharsPerPage pages < 50
    · rw [if_pos havg, hkey]
      by_cases htr : tr ≠ "" <;> simp [htr, havg]
    · rw [if_neg havg]
      simp [havg]
  refine ⟨hgen, ?_, ?_⟩
  · have hcount : pdfValidTextCount ["abcdefghij"] = 10 := by decide
    have havg : avgCharsPerPage ["abcdefghij"] < 50 := by
      simp only [avgCharsPerPage, hcount]
      norm_num
    exact (hgen ["abcdefghij"] (some "docs/scan.pdf") "ocr text"
      (by decide)).mpr havg
  · have havg : ¬ avgCharsPerPage [bigPage] < 50 := by
      simp only [avgCharsPerPage, pdfValidTextCount_bigPage]
      norm_num
    simp [extract_pdf, if_neg havg]

/-- Witness for C9: the general gate applied to the 10-character one-page
    PDF with a concrete s3 key. -/
theorem textract_invoked_iff_average_below_threshold_witness :
    (extract_pdf ["abcdefghij"] (some "docs/scan.pdf") "ocr").2 = true := by
  have hcount : pdfValidTextCount ["abcdefghij"] = 10 := by decide
  have havg : avgCharsPerPage ["abcdefghij"] < 50 := by
    simp only [avgCharsPerPage, hcount]
    norm_num
  have h := textract_invoked_iff_average_below_threshold.1
    ["abcdefghij"] (some "docs/scan.pdf") "ocr" (by decide)
  exact h.mpr havg

lemma create_embeddings_batch_25_aux (embed : String → List Int) :
    ∀ (k off : Nat) (texts : List String) (acc : List (List Int)),
      ((texts.length - off) + 24) / 25 = k →
      (List.range' off k 25).foldl
          (fun embeddings start =>
            embeddings ++ ((texts.drop start).take 25).map embed) acc
        = acc ++ (texts.drop off).map embed := by
  intro k
  induction k with
  | zero =>
      intro off texts acc hk
      have hle : texts.length ≤ off := by omega
      rw [List.drop_eq_nil_of_le hle]
      simp
  | succ k ih =>
      intro off texts acc hk
      rw [List.range'_succ, List.foldl_cons]
      rw [ih (off + 25) texts
        (acc ++ ((texts.drop off).take 25).map embed) (by omega)]
      have hdd : (texts.drop off).drop 25 = texts.drop (off + 25) := by
        rw [List.drop_drop]
      have hsplit : (texts.drop off).map embed
          = ((texts.drop off).take 25).map embed
            ++ ((texts.drop off).drop 25).map embed := by
        rw [← List.map_append, List.take_append_drop]
      rw [hsplit, hdd, List.append_assoc]

/-- The worker's batch embedding with its batch size 25
    (kb_indexing_worker.py line 154) is one embedding per chunk text. -/
lemma create_embeddings_batch_25_eq_map (embed : String → List Int)
    (texts : List String) :
    create_embeddings_batch embed texts 25 = texts.map embed := by
  unfold create_embeddings_batch
  have h := create_embeddings_batch_25_aux embed
    ((texts.length + 24) / 25) 0 texts [] (by omega)
  simpa using h

/-- C4: whenever the locked region performs a save — the embeddings being
    the worker's batch embedding of the chunk texts — and the loaded prior
    artifact was well formed, the saved artifact's metadata length equals
    its vector count, which equals both counts recorded in its config. -/
theorem save_preserves_metadata_vector_count_invariant :
    ∀ (env : WorkerEnv) (embed : String → List Int) (chunks : List Chunk)
      (lock_id : String),
      (∀ ei em, env.loadResult = Except.ok (ei, em) →
        em.length = ei.length) →
      ∀ art, WorkerOp.saveIndex art ∈
          (worker_locked_region env chunks
            (create_embeddings_batch embed (chunks.map Chunk.text) 25)
            lock_id).2 →
        art.metadata.length = art.index.length ∧
        art.config.count = art.index.length ∧
        art.config.metadata_count = art.metadata.length := by
  intro env embed chunks lock_id hwf art hmem
  have hlen : (create_embeddings_batch embed (chunks.map Chunk.text)
      25).length = chunks.length := by
    rw [create_embeddings_batch_25_eq_map]
    simp
  rcases env with ⟨loadR, sf, df, kf⟩
  rcases loadR with u | ⟨ei, em⟩ <;>
    cases sf <;> cases df <;> cases kf <;>
    simp [worker_locked_region, create_index, save_index_to_s3] at hmem <;>
    first
      | (subst hmem
         refine ⟨?_, ?_, ?_⟩ <;> simp [hlen, hwf _ _ rfl])
      | (subst hmem
         refine ⟨?_, ?_, ?_⟩ <;> simp [hlen])

/-- Witness for C4: a first ingestion of one chunk saves an artifact whose
    metadata length, vector count and config counts all agree. -/
theorem save_preserves_metadata_vector_count_invariant_witness :
    (save_index_to_s3 defaultEmbeddingDimension [[0, 1]] [c4Chunk]).metadata.length
      = (save_index_to_s3 defaultEmbeddingDimension [[0, 1]]
          [c4Chunk]).index.length ∧
    (save_index_to_s3 defaultEmbeddingDimension [[0, 1]] [c4Chunk]).config.count
      = (save_index_to_s3 defaultEmbeddingDimension [[0, 1]]
          [c4Chunk]).index.length ∧
    (save_index_to_s3 defaultEmbeddingDimension [[0, 1]]
        [c4Chunk]).config.metadata_count
      = (save_index_to_s3 defaultEmbeddingDimension [[0, 1]]
          [c4Chunk]).metadata.length :=
  save_preserves_metadata_vector_count_invariant c4Env c4Embed [c4Chunk]
    "lease-1" (fun ei em h => by simp [c4Env] at h)
    (save_index_to_s3 defaultEmbeddingDimension [[0, 1]] [c4Chunk])
    (by decide)

/-- C6: whatever the outcomes of the load, save and record-update steps,
    the locked region's operation trace contains the lock release, the
    release is its final operation (the `finally` runs after every normal
    or exceptional exit, before anything propagates), and executing the
    release on any lock record leaves a record that no longer holds the
    worker's own lease id. -/
theorem lease_released_on_every_exit :
    ∀ (env : WorkerEnv) (chunks : List Chunk)
      (embeddings : List (List Int)) (lock_id : String) (s : LockState),
      WorkerOp.releaseLock lock_id
          ∈ (worker_locked_region env chunks embeddings lock_id).2 ∧
      (worker_locked_region env chunks embeddings lock_id).2.getLast?
          = some (WorkerOp.releaseLock lock_id) ∧
      ∀ t, release_index_lock s lock_id ≠ some (lock_id, t) := by
  intro env chunks embeddings lock_id s
  refine ⟨?_, ?_, ?_⟩
  · simp only [worker_locked_region]
    exact List.mem_append_right _ (List.mem_singleton.mpr rfl)
  · simp only [worker_locked_region]
    exact List.getLast?_concat _
  · intro t h
    rcases s with _ | ⟨l, t2⟩
    · simp [release_index_lock] at h
    · by_cases hl : l = lock_id
      · simp [release_index_lock, hl] at h
      · simp [release_index_lock, hl] at h

/-- Witness for C6: even when the save raises, the trace contains the
    release, and releasing removes the worker's own lease. -/
theorem lease_released_on_every_exit_witness :
    WorkerOp.releaseLock "job-lease"
        ∈ (worker_locked_region c6Env [] [] "job-lease").2 ∧
    ∀ t, release_index_lock (some ("job-lease", 0)) "job-lease"
        ≠ some ("job-lease", t) :=
  ⟨(lease_released_on_every_exit c6Env [] [] "job-lease"
      (some ("job-lease", 0))).1,
   (lease_released_on_every_exit c6Env [] [] "job-lease"
      (some ("job-lease", 0))).2.2⟩

/-- C7: querying a found knowledge base whose indexStatus is not "ready"
    returns the 400 not-ready error after only the record lookup: no blob
    load, no embedding, no search, no generation call, and no record
    write. -/
theorem query_not_ready_short_circuits :
    ∀ (env : QueryEnv) (event : QueryEvent) (user_id kb_id : String)
      (kb : KBRecord),
      event.userId = some user_id → user_id ≠ "" →
      event.kbId = some kb_id → kb_id ≠ "" →
      env.get_by_id kb_id = some kb → kb.indexStatus ≠ "ready" →
      query_knowledge_base env event
          = (QueryResponse.notReady, [QueryEffect.recordRead]) ∧
      QueryResponse.statusCode QueryResponse.notReady = 400 ∧
      ∀ e ∈ (query_knowledge_base env event).2,
        e ≠ QueryEffect.blobLoad ∧ e ≠ QueryEffect.embedCall ∧
        e ≠ QueryEffect.searchCall ∧ e ≠ QueryEffect.generateCall ∧
        e ≠ QueryEffect.recordWrite := by
  intro env event user_id kb_id kb hu hune hk hkne hget hstatus
  rcases event with ⟨eu, ek, eb⟩
  simp only at hu hk
  subst hu
  subst hk
  have hmain : query_knowledge_base env ⟨some user_id, some kb_id, eb⟩
      = (QueryResponse.notReady, [QueryEffect.recordRead]) := by
    simp only [query_knowledge_base]
    rw [if_neg hune, if_neg hkne, hget]
    simp only [if_pos hstatus]
  refine ⟨hmain, rfl, ?_⟩
  rw [hmain]
  intro e he
  simp only [List.mem_singleton] at he
  subst he
  refine ⟨by decide, by decide, by decide, by decide, by decide⟩

/-- Witness for C7: a concrete query against the empty-index KB returns
    the 400 not-ready error with only the record lookup performed. -/
theorem query_not_ready_short_circuits_witness :
    query_knowledge_base c7Env
        ⟨some "caller-9", some "kb-1", none⟩
      = (QueryResponse.notReady, [QueryEffect.recordRead]) ∧
    QueryResponse.statusCode QueryResponse.notReady = 400 :=
  let h := query_not_ready_short_circuits c7Env
    ⟨some "caller-9", some "kb-1", none⟩ "caller-9" "kb-1"
    { userId := "owner-1", indexStatus := "empty",
      embeddingModel := "amazon.titan-embed-text-v2:0" }
    rfl (by decide) rfl (by decide) (by decide) (by decide)
  ⟨h.1, h.2.1⟩

/-- C10: the handler resolves the KB by kb id alone and uses the caller's
    identity only for the authentication presence check, so any two
    authenticated callers get identical responses and identical effect
    traces for the same query against the same knowledge base. -/
theorem query_is_owner_agnostic :
    ∀ (env : QueryEnv) (kbId : Option String) (body : Option QueryBody)
      (u1 u2 : String), u1 ≠ "" → u2 ≠ "" →
      query_knowledge_base env ⟨some u1, kbId, body⟩
        = query_knowledge_base env ⟨some u2, kbId, body⟩ := by
  intro env kbId body u1 u2 h1 h2
  simp only [query_knowledge_base]
  rw [if_neg h1, if_neg h2]

/-- Witness for C10: two different authenticated callers receive the same
    outcome. -/
theorem query_is_owner_agnostic_witness :
    query_knowledge_base c10Env ⟨some "alice", some "kb-7", none⟩
      = query_knowledge_base c10Env ⟨some "bob", some "kb-7", none⟩ :=
  query_is_owner_agnostic c10Env (some "kb-7") none "alice" "bob"
    (by decide) (by decide)

end Mabani
